import Mathlib

/-!
Shallow embedding of the paginated Google-scraping core of the
`email-search-extractor` repository.

The repository ships two implementations of `GoogleScraper.search_and_extract`:

* `src/scraper_playwright.py` — a synchronous Playwright variant ("pw" below):
  only `playwright` `TimeoutError`s from `page.goto` and `page.wait_for_selector`
  are caught inside the page loop; any other exception raised while processing a
  page propagates out of the run (after the `finally` teardown).
* `src/scraper.py` — a file holding two merge-conflict branches (an async
  Playwright branch and a Selenium branch, "sp" below) that are behaviourally
  identical for the properties studied here: the whole per-page body is wrapped
  in `try/except Exception: continue`, the readiness wait is a three-step
  cascade of probes, and the HTML fallback text is appended only when nonempty.

Pure library calls made by the code (navigation, DOM waits, text reads) are
modelled by per-page oracles (`PwPageEnv`, `SpPageEnv`); the externally mutable
`pause_flag` / `stop_flag` instance fields are modelled by a schedule (`Flags`)
giving the value observed at each poll; each poll or page-processing step
advances the logical clock by one tick.  Python's `html.unescape` is an external
standard-library call, so it is kept abstract as a parameter `u : String → String`.
-/

/-- Python `\s` on the ASCII range: the whitespace classes used by the
source's `re.sub(r"\s+", " ", ...)` and `str.strip()` calls. -/
def isPySpace (c : Char) : Bool :=
  c = ' ' || c = '\t' || c = '\n' || c = '\r' || c = Char.ofNat 11 || c = Char.ofNat 12

/-- Python `str.strip()` on a character list. -/
def pyStripL (s : List Char) : List Char :=
  ((s.dropWhile isPySpace).reverse.dropWhile isPySpace).reverse

/-- Python `str.strip()`. -/
def pyStrip (s : String) : String :=
  String.mk (pyStripL s.toList)

/-- Fuel-indexed engine for `re.sub(r"\s+", " ", s)`: each maximal run of
whitespace becomes a single space.  Each step consumes at least one input
character, so fuel `s.length` (used by `collapseWsL`) never runs out. -/
def collapseWsAux : Nat → List Char → List Char
  | 0, s => s
  | _ + 1, [] => []
  | fuel + 1, c :: cs =>
    if isPySpace c then ' ' :: collapseWsAux fuel (cs.dropWhile isPySpace)
    else c :: collapseWsAux fuel cs

/-- Python `re.sub(r"\s+", " ", s)`. -/
def collapseWsL (s : List Char) : List Char :=
  collapseWsAux s.length s

/-- Drop everything up to and including the first occurrence of `pat`
(the shortest-match step of the non-greedy `.*?pat`); `none` if `pat` never
occurs. -/
def dropThroughL (pat : List Char) : List Char → Option (List Char)
  | [] => none
  | c :: cs =>
    if pat.isPrefixOf (c :: cs) then some ((c :: cs).drop pat.length)
    else dropThroughL pat cs

/-- Attempt the regex `openPat[^>]*>.*?closePat` (with `re.DOTALL`) at the head
of `s`; on success return the remainder of `s` after the match. -/
def matchTagBlock (openPat closePat s : List Char) : Option (List Char) :=
  if openPat.isPrefixOf s then
    match (s.drop openPat.length).dropWhile (fun d => d ≠ '>') with
    | '>' :: s3 => dropThroughL closePat s3
    | _ => none
  else none

/-- Fuel-indexed engine for `re.sub(openPat[^>]*>.*?closePat, "", s)`: leftmost
non-overlapping matches are deleted.  Each step consumes at least one input
character, so fuel `s.length` (used by `subTagBlock`) never runs out. -/
def subTagBlockAux (openPat closePat : List Char) : Nat → List Char → List Char
  | 0, s => s
  | _ + 1, [] => []
  | fuel + 1, c :: cs =>
    match matchTagBlock openPat closePat (c :: cs) with
    | some rest => subTagBlockAux openPat closePat fuel rest
    | none => c :: subTagBlockAux openPat closePat fuel cs

/-- `re.sub(openPat[^>]*>.*?closePat, "", s, flags=re.DOTALL)`. -/
def subTagBlock (openPat closePat : List Char) (s : List Char) : List Char :=
  subTagBlockAux openPat closePat s.length s

/-- Fuel-indexed engine for `re.sub(r"<[^>]+>", " ", s)`: every leftmost
occurrence of `<`, one-or-more non-`>` characters, `>` becomes one space. -/
def subTagsAux : Nat → List Char → List Char
  | 0, s => s
  | _ + 1, [] => []
  | fuel + 1, c :: cs =>
    if c = '<' then
      match (cs.takeWhile (fun d => d ≠ '>')), (cs.dropWhile (fun d => d ≠ '>')) with
      | [], _ => c :: subTagsAux fuel cs
      | _ :: _, '>' :: rs => ' ' :: subTagsAux fuel rs
      | _ :: _, _ => c :: subTagsAux fuel cs
    else c :: subTagsAux fuel cs

/-- Strip `<script ...>...</script>` blocks
(`re.sub(r"<script[^>]*>.*?</script>", "", html, flags=re.DOTALL)`). -/
def stripScripts (h : List Char) : List Char :=
  subTagBlock "<script".toList "</script>".toList h

/-- Strip `<style ...>...</style>` blocks. -/
def stripStyles (h : List Char) : List Char :=
  subTagBlock "<style".toList "</style>".toList h

/-- `re.sub(r"<[^>]+>", " ", s)`. -/
def stripTags (h : List Char) : List Char :=
  subTagsAux h.length h

/-- `_clean_html_text` of `src/scraper_playwright.py` (lines 24-30); the same
pipeline appears inline in both branches of `src/scraper.py` (lines 288-316):
strip script blocks, strip style blocks, turn remaining tags into spaces,
collapse whitespace and strip, then apply `html.unescape` (kept abstract
as `u`). -/
def clean_html_text (u : String → String) (html : String) : String :=
  u (String.mk (pyStripL (collapseWsL (stripTags (stripStyles (stripScripts html.toList))))))

/-- A readiness probe of the wait cascade. -/
inductive Probe where
  | container
  | result
  | body
deriving DecidableEq

/-- Outcome of the readiness wait: which probes (with their timeouts, in
milliseconds) were attempted, which signal succeeded (`none` = all timed out),
and the extra settle delay applied afterwards (ms). -/
structure ReadyOut where
  attempted : List (Probe × Nat)
  signal : Option Probe
  settleMs : Nat
deriving DecidableEq

/-- The ordered probe cascade of `src/scraper.py` (lines 204-255, identical in
both merge branches): results container (10s), individual result marker (10s),
document body (8s). -/
def readinessCascade : List (Probe × Nat) :=
  [(Probe.container, 10000), (Probe.result, 10000), (Probe.body, 8000)]

/-- The three nested `try/except` strategies of `src/scraper.py` lines 204-255:
strategy `k+1` runs only if strategy `k` raised; a success via the body probe is
followed by a fixed 2s settle sleep; every failure is caught, so the wait never
raises. `s1 s2 s3` say whether each probe would succeed. -/
def spAwaitReady (s1 s2 s3 : Bool) : ReadyOut :=
  if s1 then ⟨[(Probe.container, 10000)], some Probe.container, 0⟩
  else if s2 then ⟨[(Probe.container, 10000), (Probe.result, 10000)], some Probe.result, 0⟩
  else if s3 then ⟨readinessCascade, some Probe.body, 2000⟩
  else ⟨readinessCascade, none, 0⟩

/-- The single `wait_for_selector("div[data-sokoban-container]", timeout=10000)`
guarded by one `try/except PlaywrightTimeoutError` in
`src/scraper_playwright.py` lines 121-126: one probe only, never raises on
timeout, no settle delay. -/
def pwAwaitReady (found : Bool) : ReadyOut :=
  ⟨[(Probe.container, 10000)], if found then some Probe.container else none, 0⟩

/-- `f"{self.base_url}?q={keywords}&start={page_num * 10}"` with
`base_url = "https://www.google.com/search"` (both variants). -/
def searchUrl (keywords : String) (pageNum : Nat) : String :=
  "https://www.google.com/search" ++ "?q=" ++ keywords ++ "&start=" ++ toString (pageNum * 10)

/-- Observable events of a run: an issued page request, the readiness-wait
outcome, a progress-callback invocation. -/
inductive Ev where
  | request (url : String)
  | ready (r : ReadyOut)
  | progress (cur total : Nat)
deriving DecidableEq

/-- The page requests contained in a trace, in order. -/
def requestsOf (evs : List Ev) : List String :=
  evs.filterMap (fun ev => match ev with | Ev.request url => some url | _ => none)

/-- The progress-callback invocations contained in a trace, in order. -/
def progressOf (evs : List Ev) : List (Nat × Nat) :=
  evs.filterMap (fun ev => match ev with | Ev.progress c t => some (c, t) | _ => none)

/-- Result of a Python call that either returns a string or raises. -/
inductive PyRes where
  | err
  | ok (s : String)
deriving DecidableEq

/-- Outcome of `page.goto` in the sync Playwright variant: success, a
`PlaywrightTimeoutError` (caught), or any other exception (not caught). -/
inductive NavRes where
  | ok
  | timeout
  | err
deriving DecidableEq

/-- Outcome of `wait_for_selector` in the sync Playwright variant: selector
found, `PlaywrightTimeoutError` (caught), or any other exception (not caught). -/
inductive SelRes where
  | found
  | timeout
  | err
deriving DecidableEq

/-- Oracle for one page of the sync Playwright variant: outcomes of
`page.goto`, `wait_for_selector`, `page.evaluate("document.body.innerText")`
and `page.content()`. -/
structure PwPageEnv where
  nav : NavRes
  sel : SelRes
  visible : PyRes
  content : PyRes
deriving DecidableEq

/-- Oracle for one page of `src/scraper.py`: whether navigation succeeds
(`false` = it raises; the per-page handler catches it), the three readiness
probes, and the visible-text / page-source reads. -/
structure SpPageEnv where
  nav : Bool
  s1 : Bool
  s2 : Bool
  s3 : Bool
  visible : PyRes
  html : PyRes
deriving DecidableEq

/-- Externally controlled values of the `stop_flag` / `pause_flag` instance
fields, as observed at each logical tick of a run. -/
structure Flags where
  stopAt : Nat → Bool
  pauseAt : Nat → Bool

/-- A schedule on which no control signal is ever set. -/
def noSignals : Flags := ⟨fun _ => false, fun _ => false⟩

/-- `while self.pause_flag: time.sleep(0.5)` — polls only `pause_flag`; each
poll consumes a tick; `none` models spinning past the spin-fuel bound (the real
loop would still be spinning). -/
def pauseSpin (sched : Flags) : Nat → Nat → Option Nat
  | 0, t => if sched.pauseAt t then none else some (t + 1)
  | f + 1, t => if sched.pauseAt t then pauseSpin sched f (t + 1) else some (t + 1)

/-- Output of the page loop: its event trace, the text accumulated by the
iterations it ran, and whether an exception escaped the loop. -/
structure LoopOut where
  evs : List Ev
  text : String
  err : Bool
deriving DecidableEq

/-- Prepend an event to a loop output. -/
def consEv (e : Ev) (o : LoopOut) : LoopOut :=
  ⟨e :: o.evs, o.text, o.err⟩

/-- The HTML-fallback arm of `src/scraper.py` lines 287-333: read
`page_source` (an exception here is caught by the inner handler and the page
contributes nothing), clean it, then append it only when nonempty
(`if text and len(text) > 100: ... else: if text: ...`). -/
def spHtmlFallback (u : String → String) (e : SpPageEnv) : Option String :=
  match e.html with
  | PyRes.err => none
  | PyRes.ok h =>
    let text := clean_html_text u h
    if text = "" then none else some text

/-- The extraction of `src/scraper.py` lines 261-333: try the visible-text
read; use it when nonempty and longer than 100 characters; on a short result
(`raise Exception("Insufficient visible text")`) or a failed read, fall back to
HTML cleaning.  Never raises past the page boundary. -/
def spExtract (u : String → String) (e : SpPageEnv) : Option String :=
  match e.visible with
  | PyRes.err => spHtmlFallback u e
  | PyRes.ok v =>
    let pt := pyStrip v
    if pt ≠ "" ∧ 100 < pt.length then some pt else spHtmlFallback u e

/-- Per-page contribution of `src/scraper.py`: nothing when navigation raised,
otherwise the extraction result. -/
def spContrib (u : String → String) (e : SpPageEnv) : Option String :=
  if e.nav then spExtract u e else none

/-- A page block as it enters the accumulator: the text followed by one
newline, or nothing. -/
def contribStr : Option String → String
  | some t => t ++ "\n"
  | none => ""

/-- Concatenation of page blocks in page order. -/
def joinBlocks : List String → String
  | [] => ""
  | b :: bs => b ++ joinBlocks bs

/-- Whether processing this page makes the sync Playwright loop raise (the
branches of `search_and_extract` in `src/scraper_playwright.py` that have no
`except`): a non-timeout `goto` failure, a non-timeout `wait_for_selector`
failure, a failed visible-text read, or a failed `page.content()` read when the
fallback is needed. -/
def pwPageAborts (e : PwPageEnv) : Bool :=
  match e.nav with
  | NavRes.timeout => false
  | NavRes.err => true
  | NavRes.ok =>
    if e.sel = SelRes.err then true
    else
      match e.visible with
      | PyRes.err => true
      | PyRes.ok v =>
        if pyStrip v ≠ "" ∧ 100 < (pyStrip v).length then false
        else
          match e.content with
          | PyRes.err => true
          | PyRes.ok _ => false

/-- Per-page contribution of the sync Playwright variant on a page that does
not abort the run: nothing on a navigation timeout (`continue`), otherwise the
visible text when long enough, else the cleaned HTML — appended even when
empty. -/
def pwContrib (u : String → String) (e : PwPageEnv) : Option String :=
  match e.nav with
  | NavRes.timeout => none
  | _ =>
    match e.visible with
    | PyRes.err => none
    | PyRes.ok v =>
      let pt := pyStrip v
      if pt ≠ "" ∧ 100 < pt.length then some pt
      else
        match e.content with
        | PyRes.err => none
        | PyRes.ok h => some (clean_html_text u h)

/-- Whether a page of the sync Playwright variant reaches the progress
callback. -/
def pwEmits (e : PwPageEnv) : Bool :=
  !pwPageAborts e && !(e.nav = NavRes.timeout)

/-- The page loop of `search_and_extract` in `src/scraper_playwright.py`
(lines 97-147) over the list of remaining page indices: poll `stop_flag` at the
top (one tick), spin on `pause_flag`, issue the request, and process the page
(one tick), catching only the two `PlaywrightTimeoutError` sites.  `none`
models a run still spinning in the pause-wait. -/
def pwLoop (k : String) (n : Nat) (u : String → String) (env : Nat → PwPageEnv)
    (sched : Flags) (spinFuel : Nat) : List Nat → Nat → Option LoopOut
  | [], _ => some ⟨[], "", false⟩
  | i :: rest, t =>
    if sched.stopAt t then some ⟨[], "", false⟩
    else
      match pauseSpin sched spinFuel (t + 1) with
      | none => none
      | some t' =>
        let e := env i
        let req := Ev.request (searchUrl k i)
        match e.nav with
        | NavRes.timeout =>
          (pwLoop k n u env sched spinFuel rest (t' + 1)).map (consEv req)
        | NavRes.err => some ⟨[req], "", true⟩
        | NavRes.ok =>
          if e.sel = SelRes.err then some ⟨[req], "", true⟩
          else
            let rdy := Ev.ready (pwAwaitReady (decide (e.sel = SelRes.found)))
            match e.visible with
            | PyRes.err => some ⟨[req, rdy], "", true⟩
            | PyRes.ok v =>
              let pt := pyStrip v
              if pt ≠ "" ∧ 100 < pt.length then
                (pwLoop k n u env sched spinFuel rest (t' + 1)).map (fun o =>
                  ⟨req :: rdy :: Ev.progress (i + 1) n :: o.evs, pt ++ "\n" ++ o.text, o.err⟩)
              else
                match e.content with
                | PyRes.err => some ⟨[req, rdy], "", true⟩
                | PyRes.ok h =>
                  (pwLoop k n u env sched spinFuel rest (t' + 1)).map (fun o =>
                    ⟨req :: rdy :: Ev.progress (i + 1) n :: o.evs,
                     clean_html_text u h ++ "\n" ++ o.text, o.err⟩)

/-- The page loop of `search_and_extract` in `src/scraper.py` (lines 167-394):
same loop head, but the whole page body sits in `try/except Exception:
continue`, so a navigation failure skips the page (no readiness wait, no
progress call) and nothing else can escape. -/
def spLoop (k : String) (n : Nat) (u : String → String) (env : Nat → SpPageEnv)
    (sched : Flags) (spinFuel : Nat) : List Nat → Nat → Option LoopOut
  | [], _ => some ⟨[], "", false⟩
  | i :: rest, t =>
    if sched.stopAt t then some ⟨[], "", false⟩
    else
      match pauseSpin sched spinFuel (t + 1) with
      | none => none
      | some t' =>
        let e := env i
        let req := Ev.request (searchUrl k i)
        if e.nav then
          (spLoop k n u env sched spinFuel rest (t' + 1)).map (fun o =>
            ⟨req :: Ev.ready (spAwaitReady e.s1 e.s2 e.s3) :: Ev.progress (i + 1) n :: o.evs,
             (match spExtract u e with
              | some txt => txt ++ "\n" ++ o.text
              | none => o.text), o.err⟩)
        else
          (spLoop k n u env sched spinFuel rest (t' + 1)).map (consEv req)

/-- Handles of a session: `none` = never created, `some true` = open,
`some false` = closed. -/
structure Handles where
  page : Option Bool
  browser : Option Bool
  pw : Option Bool
deriving DecidableEq

/-- A library-level close call (`page.close()`, `browser.close()`,
`playwright.stop()`): skipped when the handle was never created (the `if`
guards of `_close` / `close_driver`); closing an already-closed handle is a
documented no-op of the automation libraries, so it is total. -/
def libClose : Option Bool → Option Bool
  | none => none
  | some _ => some false

/-- `GoogleScraper._close` of `src/scraper_playwright.py` lines 71-80:
`try: page.close() finally: browser.close(); playwright.stop()` — all three
close calls run, in that order, whatever subset of handles exists. -/
def closeSession (h : Handles) : Handles :=
  ⟨libClose h.page, libClose h.browser, libClose h.pw⟩

/-- Result of a whole `search_and_extract` call: trace, returned text, whether
the call raised, and whether the `finally` teardown ran. -/
structure RunOut where
  evs : List Ev
  text : String
  err : Bool
  closed : Bool
deriving DecidableEq

/-- Environment of a sync-Playwright run: whether `_setup` succeeds, and the
per-page oracles. -/
structure PwEnv where
  setupOk : Bool
  pages : Nat → PwPageEnv

/-- Environment of a `src/scraper.py` run. -/
structure SpEnv where
  setupOk : Bool
  pages : Nat → SpPageEnv

/-- `search_and_extract` of `src/scraper_playwright.py` lines 85-152: run
`_setup`, the page loop over indices `0..max_pages-1`, and the unconditional
`finally: self._close()`.  A failing `_setup` raises out of the call (after the
teardown); `none` models a call still spinning in a pause-wait (its `finally`
has not run yet). -/
def pwSearchAndExtract (k : String) (n : Nat) (u : String → String) (E : PwEnv)
    (sched : Flags) (spinFuel : Nat) : Option RunOut :=
  if E.setupOk then
    (pwLoop k n u E.pages sched spinFuel (List.range n) 0).map
      (fun o => ⟨o.evs, o.text, o.err, true⟩)
  else some ⟨[], "", true, true⟩

/-- `search_and_extract` of `src/scraper.py` lines 146-422: the outer
`except Exception: raise` re-raises setup failures, and
`finally: close_driver()` always runs on exit. -/
def spSearchAndExtract (k : String) (n : Nat) (u : String → String) (E : SpEnv)
    (sched : Flags) (spinFuel : Nat) : Option RunOut :=
  if E.setupOk then
    (spLoop k n u E.pages sched spinFuel (List.range n) 0).map
      (fun o => ⟨o.evs, o.text, o.err, true⟩)
  else some ⟨[], "", true, true⟩

/-- The mutable state of a `GoogleScraper` instance
(`src/scraper_playwright.py` lines 42-50). -/
structure GoogleScraper where
  headless : Bool
  interactive : Bool
  handles : Handles
  base_url : String
  pause_flag : Bool
  stop_flag : Bool
deriving DecidableEq

/-- `GoogleScraper.__init__`: both flags start `False`, `base_url` is the
Google search endpoint, no handles yet. -/
def GoogleScraper.init (headless interactive : Bool) : GoogleScraper :=
  { headless := headless, interactive := interactive,
    handles := ⟨none, none, none⟩,
    base_url := "https://www.google.com/search",
    pause_flag := false, stop_flag := false }

/-- `GoogleScraper.pause` (lines 187-189): sets `pause_flag = True`. -/
def GoogleScraper.pause (s : GoogleScraper) : GoogleScraper :=
  { s with pause_flag := true }

/-- `GoogleScraper.resume` (lines 191-193): sets `pause_flag = False`. -/
def GoogleScraper.resume (s : GoogleScraper) : GoogleScraper :=
  { s with pause_flag := false }

/-- `GoogleScraper.stop` (lines 195-197): sets `stop_flag = True`. -/
def GoogleScraper.stop (s : GoogleScraper) : GoogleScraper :=
  { s with stop_flag := true }

/-- The flag schedule seen by a run on instance `s` when no concurrent caller
mutates the flags during the run; `search_and_extract` itself never assigns
either flag, so every poll reads the values held at entry. -/
def constFlags (s : GoogleScraper) : Flags :=
  ⟨fun _ => s.stop_flag, fun _ => s.pause_flag⟩

/-- Schedule-free normal form of the Playwright page loop (used to reason
about runs under `noSignals`). -/
def pwPure (k : String) (n : Nat) (u : String → String) (env : Nat → PwPageEnv) :
    List Nat → LoopOut
  | [] => ⟨[], "", false⟩
  | i :: rest =>
    let e := env i
    let req := Ev.request (searchUrl k i)
    match e.nav with
    | NavRes.timeout => consEv req (pwPure k n u env rest)
    | NavRes.err => ⟨[req], "", true⟩
    | NavRes.ok =>
      if e.sel = SelRes.err then ⟨[req], "", true⟩
      else
        let rdy := Ev.ready (pwAwaitReady (decide (e.sel = SelRes.found)))
        match e.visible with
        | PyRes.err => ⟨[req, rdy], "", true⟩
        | PyRes.ok v =>
          let pt := pyStrip v
          if pt ≠ "" ∧ 100 < pt.length then
            let o := pwPure k n u env rest
            ⟨req :: rdy :: Ev.progress (i + 1) n :: o.evs, pt ++ "\n" ++ o.text, o.err⟩
          else
            match e.content with
            | PyRes.err => ⟨[req, rdy], "", true⟩
            | PyRes.ok h =>
              let o := pwPure k n u env rest
              ⟨req :: rdy :: Ev.progress (i + 1) n :: o.evs,
               clean_html_text u h ++ "\n" ++ o.text, o.err⟩

/-- Schedule-free normal form of the `src/scraper.py` page loop. -/
def spPure (k : String) (n : Nat) (u : String → String) (env : Nat → SpPageEnv) :
    List Nat → LoopOut
  | [] => ⟨[], "", false⟩
  | i :: rest =>
    let e := env i
    let req := Ev.request (searchUrl k i)
    if e.nav then
      let o := spPure k n u env rest
      ⟨req :: Ev.ready (spAwaitReady e.s1 e.s2 e.s3) :: Ev.progress (i + 1) n :: o.evs,
       (match spExtract u e with
        | some txt => txt ++ "\n" ++ o.text
        | none => o.text), o.err⟩
    else consEv req (spPure k n u env rest)

/-- A 150-character visible text (passes the 100-character threshold). -/
def longText : String :=
  String.mk (List.replicate 150 'a')

/-- A Playwright page on which everything succeeds with long visible text. -/
def pwGoodPage : PwPageEnv :=
  ⟨NavRes.ok, SelRes.found, PyRes.ok longText, PyRes.ok ""⟩

/-- A Playwright page whose `goto` raises `PlaywrightTimeoutError`. -/
def pwNavTimeoutPage : PwPageEnv :=
  ⟨NavRes.timeout, SelRes.found, PyRes.ok longText, PyRes.ok ""⟩

/-- A Playwright page whose visible-text read
(`page.evaluate("document.body.innerText")`) raises. -/
def pwVisibleErrPage : PwPageEnv :=
  ⟨NavRes.ok, SelRes.found, PyRes.err, PyRes.ok ""⟩

/-- A Playwright page whose readiness selector times out and whose extraction
yields nothing at all (empty visible text, empty markup). -/
def pwEmptyPage : PwPageEnv :=
  ⟨NavRes.ok, SelRes.timeout, PyRes.ok "", PyRes.ok ""⟩

/-- A `src/scraper.py` page on which everything succeeds. -/
def spGoodPage : SpPageEnv :=
  ⟨true, true, false, false, PyRes.ok longText, PyRes.ok ""⟩

/-- A `src/scraper.py` page whose navigation raises (caught per-page). -/
def spNavFailPage : SpPageEnv :=
  ⟨false, true, false, false, PyRes.ok longText, PyRes.ok ""⟩

/-- A `src/scraper.py` page with short visible text and simple markup. -/
def spShortPage : SpPageEnv :=
  ⟨true, true, false, false, PyRes.ok "x", PyRes.ok "<b>hi there</b>"⟩

/-- Schedule of the spec's stop example: `stop()` is called while page 2
(index 1) is being processed — with no pauses an iteration spends ticks
`3*i` (stop poll), `3*i+1` (pause poll) and `3*i+2` (page processing), so the
flag turns true from tick 5 on. -/
def stopDuringPage2 : Flags :=
  ⟨fun t => decide (5 ≤ t), fun _ => false⟩

/-- Schedule on which `pause()` was called before the first pause poll and
never resumed, and `stop()` is requested (from tick 2 on) while the loop is
already spinning in the pause-wait. -/
def pauseHeldStop : Flags :=
  ⟨fun t => decide (2 ≤ t), fun t => decide (1 ≤ t)⟩

/-- Schedule on which the pause of `pauseHeldStop` is resumed at tick 6:
`stop()` was requested at tick 2, `resume()` lets the spin (ticks 1-5) end. -/
def pauseThenResumeStop : Flags :=
  ⟨fun t => decide (2 ≤ t), fun t => decide (1 ≤ t ∧ t ≤ 5)⟩

/-- A `src/scraper.py` page environment with every readiness probe failing. -/
def noReadyEnv (e : SpPageEnv) : SpPageEnv :=
  { e with s1 := false, s2 := false, s3 := false }

/-- A Playwright page (selector found) whose extraction yields the empty
string on both tiers. -/
def pwEmptyFoundPage : PwPageEnv :=
  ⟨NavRes.ok, SelRes.found, PyRes.ok "", PyRes.ok ""⟩

/-- A `src/scraper.py` page where navigation succeeds, every readiness probe
times out, and the visible text is long. -/
def spAllFailReadyPage : SpPageEnv :=
  ⟨true, false, false, false, PyRes.ok longText, PyRes.ok ""⟩

/-- The sample markup used to exercise the cleaning pipeline. -/
def sampleHtml : String :=
  "<script>var x=1;</script><div> Hello   <b>world</b> </div>"

/-- A pause poll that reads `false` exits the spin at once. -/
theorem pauseSpin_of_not_pause (sched : Flags) (f t : Nat) (h : sched.pauseAt t = false) :
    pauseSpin sched f t = some (t + 1) := by
  cases f <;> simp [pauseSpin, h]

/-- Under `noSignals` the pause spin never consumes fuel. -/
theorem pauseSpin_noSignals (f t : Nat) : pauseSpin noSignals f t = some (t + 1) :=
  pauseSpin_of_not_pause _ _ _ rfl

/-- A pause flag that stays set from the current tick on keeps the spin going
past any fuel bound: the spin polls only `pause_flag`. -/
theorem pauseSpin_held (sched : Flags) :
    ∀ (f t : Nat), (∀ t', t ≤ t' → sched.pauseAt t' = true) → pauseSpin sched f t = none
  | 0, t, h => by simp [pauseSpin, h t (Nat.le_refl t)]
  | f + 1, t, h => by
    simp only [pauseSpin, h t (Nat.le_refl t), if_true]
    exact pauseSpin_held sched f (t + 1) (fun t' ht' => h t' (Nat.le_of_succ_le ht'))

/-- The `noSignals` stop poll always reads `false`. -/
theorem noSignals_stopAt (t : Nat) : noSignals.stopAt t = false := rfl

/-- Under `noSignals` the Playwright loop computes its schedule-free normal
form. -/
theorem pwLoop_noSignals (k : String) (n : Nat) (u : String → String)
    (env : Nat → PwPageEnv) (f : Nat) :
    ∀ (is : List Nat) (t : Nat),
      pwLoop k n u env noSignals f is t = some (pwPure k n u env is)
  | [], _ => rfl
  | i :: rest, t => by
    have ih := pwLoop_noSignals k n u env f rest (t + 1 + 1 + 1)
    simp only [pwLoop, pwPure, noSignals_stopAt, pauseSpin_noSignals, Bool.false_eq_true,
      if_false]
    cases hnav : (env i).nav with
    | timeout => simp [ih]
    | err => rfl
    | ok =>
      by_cases hsel : (env i).sel = SelRes.err
      · simp [hsel]
      · simp only [hsel, if_false]
        cases hv : (env i).visible with
        | err => rfl
        | ok v =>
          by_cases hlen : pyStrip v ≠ "" ∧ 100 < (pyStrip v).length
          · simp [hlen, ih]
          · simp only [hlen, if_false]
            cases hc : (env i).content with
            | err => rfl
            | ok h => simp [ih]

/-- Under `noSignals` the `src/scraper.py` loop computes its schedule-free
normal form. -/
theorem spLoop_noSignals (k : String) (n : Nat) (u : String → String)
    (env : Nat → SpPageEnv) (f : Nat) :
    ∀ (is : List Nat) (t : Nat),
      spLoop k n u env noSignals f is t = some (spPure k n u env is)
  | [], _ => rfl
  | i :: rest, t => by
    have ih := spLoop_noSignals k n u env f rest (t + 1 + 1 + 1)
    simp only [spLoop, spPure, noSignals_stopAt, pauseSpin_noSignals, Bool.false_eq_true,
      if_false]
    cases hnav : (env i).nav <;> simp [hnav, ih]

/-- No exception ever escapes the `src/scraper.py` page loop (schedule-free
form): every per-page failure is absorbed by `except Exception: continue`. -/
theorem spPure_err (k : String) (n : Nat) (u : String → String) (env : Nat → SpPageEnv) :
    ∀ is : List Nat, (spPure k n u env is).err = false
  | [] => rfl
  | i :: rest => by
    have ih := spPure_err k n u env rest
    simp only [spPure]
    cases hnav : (env i).nav <;> simp [consEv, ih]

/-- The requests issued by the `src/scraper.py` loop are exactly the search
URLs of its page indices, in order — even when navigation fails on some
pages. -/
theorem spPure_requests (k : String) (n : Nat) (u : String → String) (env : Nat → SpPageEnv) :
    ∀ is : List Nat, requestsOf (spPure k n u env is).evs = is.map (searchUrl k)
  | [] => rfl
  | i :: rest => by
    have ih := spPure_requests k n u env rest
    simp only [spPure]
    cases hnav : (env i).nav <;>
      simp [consEv, requestsOf, List.filterMap_cons, ih, requestsOf] <;>
      simpa [requestsOf] using ih

/-- The progress calls of the `src/scraper.py` loop: one `(i+1, n)` per page
whose navigation succeeded, none for a page whose per-page handler fired. -/
theorem spPure_progress (k : String) (n : Nat) (u : String → String) (env : Nat → SpPageEnv) :
    ∀ is : List Nat,
      progressOf (spPure k n u env is).evs =
        (is.filter (fun i => (env i).nav)).map (fun i => (i + 1, n))
  | [] => rfl
  | i :: rest => by
    have ih := spPure_progress k n u env rest
    simp only [spPure]
    cases hnav : (env i).nav <;>
      simp [consEv, progressOf, List.filterMap_cons, List.filter_cons, hnav] <;>
      simpa [progressOf] using ih

/-- The text returned by the `src/scraper.py` loop is the concatenation, in
page order, of each page's contribution block. -/
theorem spPure_text (k : String) (n : Nat) (u : String → String) (env : Nat → SpPageEnv) :
    ∀ is : List Nat,
      (spPure k n u env is).text = joinBlocks (is.map (fun i => contribStr (spContrib u (env i))))
  | [] => rfl
  | i :: rest => by
    have ih := spPure_text k n u env rest
    simp only [spPure, List.map_cons, joinBlocks]
    cases hnav : (env i).nav with
    | false => simp [consEv, spContrib, hnav, contribStr, ih, String.empty_append]
    | true =>
      cases hx : spExtract u (env i) with
      | none =>
        have hcs : contribStr (spContrib u (env i)) = "" := by
          simp [spContrib, hnav, contribStr, hx]
        simp [hx, ih, hcs, String.empty_append]
      | some txt =>
        have hcs : contribStr (spContrib u (env i)) = txt ++ "\n" := by
          simp [spContrib, hnav, contribStr, hx]
        simp [hx, ih, hcs, String.append_assoc]

/-- Unfolding rule: a request at the head of a trace. -/
theorem requestsOf_cons_request (url : String) (l : List Ev) :
    requestsOf (Ev.request url :: l) = url :: requestsOf l := by
  simp [requestsOf]

/-- Unfolding rule: a readiness event contributes no request. -/
theorem requestsOf_cons_ready (r : ReadyOut) (l : List Ev) :
    requestsOf (Ev.ready r :: l) = requestsOf l := by
  simp [requestsOf]

/-- Unfolding rule: a progress event contributes no request. -/
theorem requestsOf_cons_progress (c tt : Nat) (l : List Ev) :
    requestsOf (Ev.progress c tt :: l) = requestsOf l := by
  simp [requestsOf]

/-- Unfolding rule: the empty trace has no requests. -/
theorem requestsOf_nil : requestsOf [] = [] := rfl

/-- Unfolding rule: a progress event at the head of a trace. -/
theorem progressOf_cons_progress (c tt : Nat) (l : List Ev) :
    progressOf (Ev.progress c tt :: l) = (c, tt) :: progressOf l := by
  simp [progressOf]

/-- Unfolding rule: a request contributes no progress entry. -/
theorem progressOf_cons_request (url : String) (l : List Ev) :
    progressOf (Ev.request url :: l) = progressOf l := by
  simp [progressOf]

/-- Unfolding rule: a readiness event contributes no progress entry. -/
theorem progressOf_cons_ready (r : ReadyOut) (l : List Ev) :
    progressOf (Ev.ready r :: l) = progressOf l := by
  simp [progressOf]

/-- Unfolding rule: the empty trace has no progress entries. -/
theorem progressOf_nil : progressOf [] = [] := rfl

/-- On an index list none of whose pages aborts, the sync Playwright loop
(schedule-free form) raises nothing, requests exactly the search URLs of its
indices in order, reports progress once per fully processed page, and returns
the concatenation of the per-page blocks. -/
theorem pwPure_ok (k : String) (n : Nat) (u : String → String) (env : Nat → PwPageEnv) :
    ∀ is : List Nat, (∀ i ∈ is, pwPageAborts (env i) = false) →
      (pwPure k n u env is).err = false ∧
      requestsOf (pwPure k n u env is).evs = is.map (searchUrl k) ∧
      progressOf (pwPure k n u env is).evs =
        (is.filter (fun i => pwEmits (env i))).map (fun i => (i + 1, n)) ∧
      (pwPure k n u env is).text =
        joinBlocks (is.map (fun i => contribStr (pwContrib u (env i))))
  | [], _ => ⟨rfl, rfl, rfl, rfl⟩
  | i :: rest, hab => by
    have habi : pwPageAborts (env i) = false := hab i (List.mem_cons_self i rest)
    obtain ⟨ihe, ihr, ihp, iht⟩ :=
      pwPure_ok k n u env rest (fun j hj => hab j (List.mem_cons_of_mem i hj))
    simp only [pwPure]
    cases hnav : (env i).nav with
    | err => simp [pwPageAborts, hnav] at habi
    | timeout =>
      have hemit : pwEmits (env i) = false := by simp [pwEmits, hnav]
      have hcon : contribStr (pwContrib u (env i)) = "" := by
        simp [pwContrib, hnav, contribStr]
      refine ⟨by simp [consEv, ihe], ?_, ?_, ?_⟩
      · simp [consEv, requestsOf_cons_request, ihr]
      · simp [consEv, progressOf_cons_request, ihp, List.filter_cons, hemit]
      · simp [consEv, iht, joinBlocks, hcon, String.empty_append]
    | ok =>
      by_cases hsel : (env i).sel = SelRes.err
      · simp [pwPageAborts, hnav, hsel] at habi
      · simp only [hsel, if_false]
        cases hv : (env i).visible with
        | err => simp [pwPageAborts, hnav, hsel, hv] at habi
        | ok v =>
          by_cases hlen : pyStrip v ≠ "" ∧ 100 < (pyStrip v).length
          · have hemit : pwEmits (env i) = true := by
              simp [pwEmits, pwPageAborts, hnav, hsel, hv, hlen]
            have hcon : contribStr (pwContrib u (env i)) = pyStrip v ++ "\n" := by
              simp [pwContrib, hnav, hv, hlen, contribStr]
            refine ⟨by simp [hlen, ihe], ?_, ?_, ?_⟩
            · simp [hlen, requestsOf_cons_request, requestsOf_cons_ready,
                requestsOf_cons_progress, ihr]
            · simp [hlen, progressOf_cons_request, progressOf_cons_ready,
                progressOf_cons_progress, ihp, List.filter_cons, hemit]
            · simp [hlen, iht, joinBlocks, hcon, String.append_assoc]
          · simp only [hlen, if_false]
            cases hc : (env i).content with
            | err => simp [pwPageAborts, hnav, hsel, hv, hlen, hc] at habi
            | ok h =>
              have hemit : pwEmits (env i) = true := by
                simp [pwEmits, pwPageAborts, hnav, hsel, hv, hlen, hc]
              have hcon : contribStr (pwContrib u (env i)) = clean_html_text u h ++ "\n" := by
                simp [pwContrib, hnav, hv, hlen, hc, contribStr]
              refine ⟨by simp [ihe], ?_, ?_, ?_⟩
              · simp [requestsOf_cons_request, requestsOf_cons_ready,
                  requestsOf_cons_progress, ihr]
              · simp [progressOf_cons_request, progressOf_cons_ready,
                  progressOf_cons_progress, ihp, List.filter_cons, hemit]
              · simp [iht, joinBlocks, hcon, String.append_assoc]

/-- Under any flag schedule, the `src/scraper.py` page loop never lets an
exception escape: whatever subset of pages fails, a terminating loop ends with
`err = false`. -/
theorem spLoop_err (k : String) (n : Nat) (u : String → String) (env : Nat → SpPageEnv)
    (sched : Flags) (f : Nat) :
    ∀ (is : List Nat) (t : Nat) (o : LoopOut),
      spLoop k n u env sched f is t = some o → o.err = false
  | [], _, o => by
    intro h
    simp only [spLoop] at h
    injection h with h
    rw [← h]
  | i :: rest, t, o => by
    intro h
    simp only [spLoop] at h
    by_cases hs : sched.stopAt t = true
    · rw [if_pos hs] at h
      injection h with h
      rw [← h]
    · rw [if_neg hs] at h
      cases hps : pauseSpin sched f (t + 1) with
      | none => rw [hps] at h; exact absurd h (by simp)
      | some t' =>
        rw [hps] at h
        dsimp only at h
        cases hrec : spLoop k n u env sched f rest (t' + 1) with
        | none => rw [hrec] at h; cases hnav : (env i).nav <;> simp [hnav] at h
        | some o' =>
          have ho' := spLoop_err k n u env sched f rest (t' + 1) o' hrec
          rw [hrec] at h
          cases hnav : (env i).nav with
          | false =>
            simp only [hnav, Bool.false_eq_true, if_false] at h
            have hgo := Option.some.inj h
            rw [← hgo]
            exact ho'
          | true =>
            simp only [hnav, if_true] at h
            have hgo := Option.some.inj h
            rw [← hgo]
            exact ho'

/-- With the pause flag held from tick 1 on, the Playwright loop never gets
past its first pause-wait, for any spin bound — even though `stop_flag` is set
from tick 2 on: the spin polls only `pause_flag`. -/
theorem pwLoop_pauseHeldStop (k : String) (n : Nat) (u : String → String)
    (env : Nat → PwPageEnv) (f : Nat) (i : Nat) (rest : List Nat) :
    pwLoop k n u env pauseHeldStop f (i :: rest) 0 = none := by
  have hspin : pauseSpin pauseHeldStop f 1 = none :=
    pauseSpin_held _ f 1 (fun t' ht' => by simp [pauseHeldStop]; omega)
  have hst : pauseHeldStop.stopAt 0 = false := rfl
  simp only [pwLoop, hst, Bool.false_eq_true, if_false, hspin]

/-- Same for the `src/scraper.py` loop: the pause-wait has no stop poll. -/
theorem spLoop_pauseHeldStop (k : String) (n : Nat) (u : String → String)
    (env : Nat → SpPageEnv) (f : Nat) (i : Nat) (rest : List Nat) :
    spLoop k n u env pauseHeldStop f (i :: rest) 0 = none := by
  have hspin : pauseSpin pauseHeldStop f 1 = none :=
    pauseSpin_held _ f 1 (fun t' ht' => by simp [pauseHeldStop]; omega)
  have hst : pauseHeldStop.stopAt 0 = false := rfl
  simp only [spLoop, hst, Bool.false_eq_true, if_false, hspin]

/-- The `(i+1, n)` pairs coming from a filtered range have strictly increasing
first components. -/
theorem pairwiseProgressFormula (n : Nat) (p : Nat → Bool) :
    (((List.range n).filter p).map (fun i => (i + 1, n))).Pairwise
      (fun a b : Nat × Nat => a.1 < b.1) := by
  have h1 : ((List.range n).filter p).Pairwise (· < ·) :=
    (List.pairwise_lt_range n).sublist (List.filter_sublist _)
  refine List.Pairwise.map _ ?_ h1
  intro a b hab
  simpa using Nat.succ_lt_succ hab

/-- A library close call is idempotent. -/
theorem libClose_idem (x : Option Bool) : libClose (libClose x) = libClose x := by
  cases x <;> rfl

/-- A list of empty blocks concatenates to the empty string. -/
theorem joinBlocks_empty : ∀ l : List String, (∀ b ∈ l, b = "") → joinBlocks l = ""
  | [], _ => rfl
  | b :: bs, h => by
    have hb := h b (List.mem_cons_self b bs)
    have hbs := joinBlocks_empty bs (fun x hx => h x (List.mem_cons_of_mem b hx))
    simp [joinBlocks, hb, hbs, String.empty_append]

/-- Navigation and extraction of a `src/scraper.py` page ignore the readiness
probe outcomes. -/
theorem spExtract_noReady (u : String → String) (e : SpPageEnv) :
    spExtract u (noReadyEnv e) = spExtract u e := rfl

/-- Clearing the readiness probes changes only the diagnostic `ready` events of
the `src/scraper.py` loop: text and error status are untouched — in particular
a page whose probes all time out is still extracted. -/
theorem spPure_noReady (k : String) (n : Nat) (u : String → String) (env : Nat → SpPageEnv) :
    ∀ is : List Nat,
      (spPure k n u (fun j => noReadyEnv (env j)) is).text = (spPure k n u env is).text ∧
      (spPure k n u (fun j => noReadyEnv (env j)) is).err = (spPure k n u env is).err
  | [] => ⟨rfl, rfl⟩
  | i :: rest => by
    obtain ⟨iht, ihe⟩ := spPure_noReady k n u env rest
    have hnav' : (noReadyEnv (env i)).nav = (env i).nav := rfl
    have hx : spExtract u (noReadyEnv (env i)) = spExtract u (env i) := rfl
    simp only [spPure]
    cases hnav : (env i).nav with
    | false => simp [consEv, hnav' , hnav, iht, ihe]
    | true =>
      simp only [hnav', hnav, if_true, hx]
      cases hext : spExtract u (env i) <;> simp [iht, ihe]

/-- A stop flag already set at the first poll ends the Playwright loop before
any request. -/
theorem pwLoop_stopped (k : String) (n : Nat) (u : String → String) (env : Nat → PwPageEnv)
    (sched : Flags) (f : Nat) (hs : sched.stopAt 0 = true) :
    ∀ is : List Nat, pwLoop k n u env sched f is 0 = some ⟨[], "", false⟩
  | [] => rfl
  | i :: rest => by simp [pwLoop, hs]

/-- C10: each control-surface operation mutates exactly one field:
`pause()` only sets `pause_flag := true`, `resume()` only sets
`pause_flag := false`, `stop()` only sets `stop_flag := true`; every other
field of the scraper (the other flag, `base_url`, the handles, `headless`,
`interactive`) is unchanged by each call; in particular `resume()` never
clears `stop_flag` and no control operation ever resets `stop_flag` to
`false`. -/
theorem spec_c10 (s : GoogleScraper) :
    s.pause.pause_flag = true ∧
    s.pause.stop_flag = s.stop_flag ∧
    s.pause.headless = s.headless ∧
    s.pause.interactive = s.interactive ∧
    s.pause.handles = s.handles ∧
    s.pause.base_url = s.base_url ∧
    s.resume.pause_flag = false ∧
    s.resume.stop_flag = s.stop_flag ∧
    s.resume.headless = s.headless ∧
    s.resume.interactive = s.interactive ∧
    s.resume.handles = s.handles ∧
    s.resume.base_url = s.base_url ∧
    s.stop.stop_flag = true ∧
    s.stop.pause_flag = s.pause_flag ∧
    s.stop.headless = s.headless ∧
    s.stop.interactive = s.interactive ∧
    s.stop.handles = s.handles ∧
    s.stop.base_url = s.base_url :=
  ⟨rfl, rfl, rfl, rfl, rfl, rfl, rfl, rfl, rfl, rfl, rfl, rfl, rfl, rfl, rfl, rfl, rfl, rfl⟩

/-- C9 (counterexample): the claim that `pause_flag` and `stop_flag` are both
`false` at the start of every invocation of `search_and_extract` — including a
second invocation on the same instance after `stop()` — fails: the flags are
initialised only in `__init__` and never reset by `search_and_extract`, so an
instance whose previous run was stopped begins its next run with
`stop_flag = true`, and that next run terminates at the very first stop poll
with no page request issued. -/
theorem spec_c9_counterexample :
    (GoogleScraper.stop (GoogleScraper.init true false)).stop_flag = true ∧
    pwSearchAndExtract "kw" 3 id ⟨true, fun _ => pwGoodPage⟩
        (constFlags (GoogleScraper.stop (GoogleScraper.init true false))) 5 =
      some ⟨[], "", false, true⟩ := by
  constructor
  · rfl
  · rfl

/-- C9 (amended): a fresh instance starts with both flags `false` (so a first
run, and every run made through the `scrape_google` wrapper that constructs a
new instance, starts un-paused and un-stopped); but `search_and_extract` never
resets the flags, so a later run on the same instance inherits them: after
`stop()` the `stop_flag` is `true` and any subsequent run returns immediately
with the empty string and an empty trace. -/
theorem spec_c9 :
    (∀ h i : Bool,
      (GoogleScraper.init h i).pause_flag = false ∧ (GoogleScraper.init h i).stop_flag = false) ∧
    (∀ s : GoogleScraper, s.stop.stop_flag = true) ∧
    (∀ (s : GoogleScraper) (k : String) (n : Nat) (u : String → String)
        (env : Nat → PwPageEnv) (f : Nat), s.stop_flag = true →
      pwSearchAndExtract k n u ⟨true, env⟩ (constFlags s) f = some ⟨[], "", false, true⟩) := by
  refine ⟨fun h i => ⟨rfl, rfl⟩, fun s => rfl, ?_⟩
  intro s k n u env f hstop
  have hs : (constFlags s).stopAt 0 = true := hstop
  simp only [pwSearchAndExtract, if_pos rfl]
  rw [pwLoop_stopped k n u env (constFlags s) f hs (List.range n)]
  rfl

/-- C9 (witness): the amended claim instantiated on the stopped instance of
the counterexample scenario. -/
theorem spec_c9_witness :
    pwSearchAndExtract "kw" 2 id ⟨true, fun _ => pwGoodPage⟩
        (constFlags (GoogleScraper.stop (GoogleScraper.init false true))) 4 =
      some ⟨[], "", false, true⟩ :=
  spec_c9.2.2 (GoogleScraper.stop (GoogleScraper.init false true)) "kw" 2 id
    (fun _ => pwGoodPage) 4 rfl

/-- C8: on every terminating exit path of a run (normal completion, early
stop, per-page-failure exhaustion, or an exception after partial setup) the
`finally` teardown executes; and the session-close operation is idempotent and
tolerant of null handles: closing twice in succession gives the same state as
closing once, and closing after `open` partially succeeded (any subset of the
three handles existing) is well defined via the `if`-guards. -/
theorem spec_c8 :
    (∀ h : Handles, closeSession (closeSession h) = closeSession h) ∧
    closeSession ⟨none, none, none⟩ = ⟨none, none, none⟩ ∧
    closeSession ⟨none, none, some true⟩ = ⟨none, none, some false⟩ ∧
    closeSession ⟨none, some true, some true⟩ = ⟨none, some false, some false⟩ ∧
    (∀ (k : String) (n : Nat) (u : String → String) (E : PwEnv) (sched : Flags)
        (f : Nat) (out : RunOut),
      pwSearchAndExtract k n u E sched f = some out → out.closed = true) ∧
    (∀ (k : String) (n : Nat) (u : String → String) (E : SpEnv) (sched : Flags)
        (f : Nat) (out : RunOut),
      spSearchAndExtract k n u E sched f = some out → out.closed = true) := by
  refine ⟨?_, rfl, rfl, rfl, ?_, ?_⟩
  · intro h
    simp [closeSession, libClose_idem]
  · intro k n u E sched f out h
    simp only [pwSearchAndExtract] at h
    by_cases hs : E.setupOk = true
    · rw [if_pos hs] at h
      cases hl : pwLoop k n u E.pages sched f (List.range n) 0 with
      | none => rw [hl] at h; exact absurd h (by simp)
      | some o =>
        rw [hl] at h
        have := Option.some.inj h
        rw [← this]
    · rw [if_neg hs] at h
      have := Option.some.inj h
      rw [← this]
  · intro k n u E sched f out h
    simp only [spSearchAndExtract] at h
    by_cases hs : E.setupOk = true
    · rw [if_pos hs] at h
      cases hl : spLoop k n u E.pages sched f (List.range n) 0 with
      | none => rw [hl] at h; exact absurd h (by simp)
      | some o =>
        rw [hl] at h
        have := Option.some.inj h
        rw [← this]
    · rw [if_neg hs] at h
      have := Option.some.inj h
      rw [← this]

/-- C8 (witness): teardown has run on the outputs of a failed-setup run and of
a stopped run. -/
theorem spec_c8_witness :
    RunOut.closed ⟨[], "", true, true⟩ = true ∧
    RunOut.closed ⟨[], "", false, true⟩ = true := by
  constructor
  · exact spec_c8.2.2.2.2.1 "kw" 1 id ⟨false, fun _ => pwGoodPage⟩ noSignals 2
      ⟨[], "", true, true⟩ (by rfl)
  · exact spec_c8.2.2.2.2.2 "kw" 0 id ⟨true, fun _ => spGoodPage⟩ noSignals 2
      ⟨[], "", false, true⟩ (by rfl)

/-- A `src/scraper.py` run under `noSignals` terminates with the normal-form
loop output and its teardown done. -/
theorem spRun_noSignals (k : String) (n : Nat) (u : String → String)
    (env : Nat → SpPageEnv) (f : Nat) :
    spSearchAndExtract k n u ⟨true, env⟩ noSignals f =
      some ⟨(spPure k n u env (List.range n)).evs, (spPure k n u env (List.range n)).text,
            (spPure k n u env (List.range n)).err, true⟩ := by
  simp only [spSearchAndExtract]
  rw [spLoop_noSignals]
  rfl

/-- A Playwright run under `noSignals` terminates with the normal-form loop
output and its teardown done. -/
theorem pwRun_noSignals (k : String) (n : Nat) (u : String → String)
    (env : Nat → PwPageEnv) (f : Nat) :
    pwSearchAndExtract k n u ⟨true, env⟩ noSignals f =
      some ⟨(pwPure k n u env (List.range n)).evs, (pwPure k n u env (List.range n)).text,
            (pwPure k n u env (List.range n)).err, true⟩ := by
  simp only [pwSearchAndExtract]
  rw [pwLoop_noSignals]
  rfl

/-- C3: in a run that no control signal interrupts, the requested URLs are
exactly `https://www.google.com/search?q={keywords}&start={i*10}` for the
0-based page indices `i = 0..max_pages-1`, issued in increasing index order —
in the `src/scraper.py` variant whatever the per-page outcomes, and in the
Playwright variant whenever no page aborts the run; the spec's example
offsets 0, 10, 20 are literal instances. -/
theorem spec_c3 :
    (∀ (k : String) (n : Nat) (u : String → String) (env : Nat → SpPageEnv) (f : Nat),
      (spSearchAndExtract k n u ⟨true, env⟩ noSignals f).map (fun o => requestsOf o.evs) =
        some ((List.range n).map (searchUrl k))) ∧
    (∀ (k : String) (n : Nat) (u : String → String) (env : Nat → PwPageEnv) (f : Nat),
      (∀ i, i < n → pwPageAborts (env i) = false) →
      (pwSearchAndExtract k n u ⟨true, env⟩ noSignals f).map (fun o => requestsOf o.evs) =
        some ((List.range n).map (searchUrl k))) ∧
    searchUrl "foo bar" 0 = "https://www.google.com/search?q=foo bar&start=0" ∧
    searchUrl "foo bar" 1 = "https://www.google.com/search?q=foo bar&start=10" ∧
    searchUrl "foo bar" 2 = "https://www.google.com/search?q=foo bar&start=20" := by
  refine ⟨?_, ?_, rfl, rfl, rfl⟩
  · intro k n u env f
    rw [spRun_noSignals]
    exact congrArg some (spPure_requests k n u env (List.range n))
  · intro k n u env f hab
    have hab' : ∀ i ∈ List.range n, pwPageAborts (env i) = false :=
      fun i hi => hab i (List.mem_range.mp hi)
    rw [pwRun_noSignals]
    exact congrArg some ((pwPure_ok k n u env (List.range n) hab').2.1)

set_option maxRecDepth 8192 in
/-- C3 (witness): a two-page Playwright run with no aborting page requests
exactly the two URLs, in order. -/
theorem spec_c3_witness :
    (pwSearchAndExtract "kw" 2 id ⟨true, fun _ => pwGoodPage⟩ noSignals 3).map
        (fun o => requestsOf o.evs) =
      some ((List.range 2).map (searchUrl "kw")) :=
  spec_c3.2.1 "kw" 2 id (fun _ => pwGoodPage) 3
    (fun _ _ => (by decide : pwPageAborts pwGoodPage = false))

/-- C4 (counterexample): the claim that the progress callback fires once per
page attempted, including failed-and-logged pages, is false: in a 2-page
`src/scraper.py` run whose first page's navigation raises (it is logged and
skipped by the per-page handler), both page requests are issued but the
callback fires only for page 2 — the delivered sequence is `[(2, 2)]`, not the
claimed `[(1, 2), (2, 2)]`. -/
theorem spec_c4_counterexample :
    (spSearchAndExtract "kw" 2 id
        ⟨true, fun i => if i = 0 then spNavFailPage else spShortPage⟩ noSignals 5).map
        (fun o => (requestsOf o.evs, progressOf o.evs)) =
      some ([searchUrl "kw" 0, searchUrl "kw" 1], [(2, 2)]) ∧
    ([(2, 2)] : List (Nat × Nat)) ≠ [(1, 2), (2, 2)] := by
  constructor
  · rfl
  · decide

/-- C4 (amended): the callback is invoked with `(page_index+1, max_pages)`
exactly once per page whose processing completed — pages skipped by the
per-page failure handler (or, in the Playwright variant, by the navigation
timeout `continue`) deliver no callback; the delivered `current_page` values
are strictly increasing; and a fully successful `max_pages`-page run delivers
exactly `1..max_pages`, each paired with `max_pages`. -/
theorem spec_c4 :
    (∀ (k : String) (n : Nat) (u : String → String) (env : Nat → SpPageEnv) (f : Nat),
      (spSearchAndExtract k n u ⟨true, env⟩ noSignals f).map (fun o => progressOf o.evs) =
        some (((List.range n).filter (fun i => (env i).nav)).map (fun i => (i + 1, n)))) ∧
    (∀ (k : String) (n : Nat) (u : String → String) (env : Nat → SpPageEnv) (f : Nat)
        (out : RunOut),
      spSearchAndExtract k n u ⟨true, env⟩ noSignals f = some out →
      (progressOf out.evs).Pairwise (fun a b : Nat × Nat => a.1 < b.1)) ∧
    (∀ (k : String) (n : Nat) (u : String → String) (env : Nat → SpPageEnv) (f : Nat),
      (∀ i, i < n → (env i).nav = true) →
      (spSearchAndExtract k n u ⟨true, env⟩ noSignals f).map (fun o => progressOf o.evs) =
        some ((List.range n).map (fun i => (i + 1, n)))) ∧
    (∀ (k : String) (n : Nat) (u : String → String) (env : Nat → PwPageEnv) (f : Nat),
      (∀ i, i < n → pwPageAborts (env i) = false) →
      (pwSearchAndExtract k n u ⟨true, env⟩ noSignals f).map (fun o => progressOf o.evs) =
        some (((List.range n).filter (fun i => pwEmits (env i))).map (fun i => (i + 1, n)))) := by
  refine ⟨?_, ?_, ?_, ?_⟩
  · intro k n u env f
    rw [spRun_noSignals]
    exact congrArg some (spPure_progress k n u env (List.range n))
  · intro k n u env f out h
    rw [spRun_noSignals] at h
    have hout := Option.some.inj h
    rw [← hout]
    show (progressOf (spPure k n u env (List.range n)).evs).Pairwise _
    rw [spPure_progress]
    exact pairwiseProgressFormula n _
  · intro k n u env f hall
    rw [spRun_noSignals]
    refine congrArg some ?_
    show progressOf (spPure k n u env (List.range n)).evs = _
    rw [spPure_progress,
      List.filter_eq_self.mpr (fun i hi => hall i (List.mem_range.mp hi))]
  · intro k n u env f hab
    have hab' : ∀ i ∈ List.range n, pwPageAborts (env i) = false :=
      fun i hi => hab i (List.mem_range.mp hi)
    rw [pwRun_noSignals]
    exact congrArg some ((pwPure_ok k n u env (List.range n) hab').2.2.1)

/-- C4 (witness): the spec's `max_pages = 5` example — a fully successful
five-page run delivers exactly `1,2,3,4,5`, each with `total_pages = 5`. -/
theorem spec_c4_witness :
    (spSearchAndExtract "kw" 5 id ⟨true, fun _ => spGoodPage⟩ noSignals 6).map
        (fun o => progressOf o.evs) =
      some [(1, 5), (2, 5), (3, 5), (4, 5), (5, 5)] :=
  (spec_c4.2.2.1 "kw" 5 id (fun _ => spGoodPage) 6 (fun _ _ => rfl)).trans (by rfl)

/-- C1 (counterexample): the claim that every per-page exception (navigation,
readiness wait, extraction) is caught at the per-page boundary is false for
the `src/scraper_playwright.py` variant: with session setup succeeding, a
single page whose visible-text read (`page.evaluate`) raises makes the whole
call raise (`err = true`) after issuing its request — the failure is not
absorbed and no further page would be attempted. -/
theorem spec_c1_counterexample :
    (⟨true, fun _ => pwVisibleErrPage⟩ : PwEnv).setupOk = true ∧
    pwSearchAndExtract "kw" 1 id ⟨true, fun _ => pwVisibleErrPage⟩ noSignals 3 =
      some ⟨[Ev.request (searchUrl "kw" 0), Ev.ready (pwAwaitReady true)], "", true, true⟩ := by
  constructor
  · rfl
  · rfl

/-- C1 (amended): in the `src/scraper.py` variant the claim holds as stated —
with setup succeeding, a terminating run never raises, whatever each page
does, under any flag schedule, and a failing setup raises; in the
`src/scraper_playwright.py` variant only the two `PlaywrightTimeoutError`
sites are caught, so a run raises nothing exactly when no page hits one of its
uncaught failure points (non-timeout navigation error, non-timeout selector
error, failed visible-text read, failed `page.content()` read on the fallback
path). -/
theorem spec_c1 :
    (∀ (k : String) (n : Nat) (u : String → String) (env : Nat → SpPageEnv)
        (sched : Flags) (f : Nat) (out : RunOut),
      spSearchAndExtract k n u ⟨true, env⟩ sched f = some out → out.err = false) ∧
    (∀ (k : String) (n : Nat) (u : String → String) (env : Nat → SpPageEnv)
        (sched : Flags) (f : Nat),
      spSearchAndExtract k n u ⟨false, env⟩ sched f = some ⟨[], "", true, true⟩) ∧
    (∀ (k : String) (n : Nat) (u : String → String) (env : Nat → PwPageEnv)
        (f : Nat) (out : RunOut),
      (∀ i, i < n → pwPageAborts (env i) = false) →
      pwSearchAndExtract k n u ⟨true, env⟩ noSignals f = some out → out.err = false) := by
  refine ⟨?_, fun k n u env sched f => rfl, ?_⟩
  · intro k n u env sched f out h
    simp only [spSearchAndExtract] at h
    rw [if_pos trivial] at h
    cases hl : spLoop k n u env sched f (List.range n) 0 with
    | none => rw [hl] at h; exact absurd h (by simp)
    | some o =>
      rw [hl] at h
      have hout := Option.some.inj h
      rw [← hout]
      exact spLoop_err k n u env sched f (List.range n) 0 o hl
  · intro k n u env f out hab h
    have hab' : ∀ i ∈ List.range n, pwPageAborts (env i) = false :=
      fun i hi => hab i (List.mem_range.mp hi)
    rw [pwRun_noSignals] at h
    have hout := Option.some.inj h
    rw [← hout]
    exact (pwPure_ok k n u env (List.range n) hab').1

set_option maxRecDepth 8192 in
/-- C1 (witness): a `src/scraper.py` run whose only page fails returns without
raising, and an abort-free Playwright run returns without raising. -/
theorem spec_c1_witness :
    RunOut.err ⟨[Ev.request (searchUrl "kw" 0)], "", false, true⟩ = false ∧
    RunOut.err ⟨[Ev.request (searchUrl "kw" 0), Ev.ready (pwAwaitReady true),
                 Ev.progress 1 1], longText ++ "\n" ++ "", false, true⟩ = false := by
  constructor
  · exact spec_c1.1 "kw" 1 id (fun _ => spNavFailPage) noSignals 2
      ⟨[Ev.request (searchUrl "kw" 0)], "", false, true⟩ (by rw [spRun_noSignals]; rfl)
  · exact spec_c1.2.2 "kw" 1 id (fun _ => pwGoodPage) 2
      ⟨[Ev.request (searchUrl "kw" 0), Ev.ready (pwAwaitReady true),
        Ev.progress 1 1], longText ++ "\n" ++ "", false, true⟩
      (fun _ _ => (by decide : pwPageAborts pwGoodPage = false))
      (by rw [pwRun_noSignals]; rfl)

set_option maxRecDepth 8192 in
/-- C2 (counterexample): the claim that a stop requested while the loop spins
in a pause-wait terminates the run at that spin, without `resume()`, is false:
on the schedule where `pause_flag` is held from tick 1 on and `stop_flag` is
set from tick 2 on (i.e. during the spin), the run is still spinning after 300
polls — the pause-wait `while self.pause_flag: time.sleep(0.5)` never reads
`stop_flag`. -/
theorem spec_c2_counterexample :
    pwSearchAndExtract "kw" 3 id ⟨true, fun _ => pwGoodPage⟩ pauseHeldStop 300 = none ∧
    pauseHeldStop.stopAt 2 = true ∧
    pauseHeldStop.pauseAt 1 = true ∧
    pauseHeldStop.pauseAt 300 = true := by
  refine ⟨?_, rfl, rfl, rfl⟩
  have h := pwLoop_pauseHeldStop "kw" 3 id (fun _ => pwGoodPage) 300 0 [1, 2]
  show Option.map (fun o : LoopOut => ({ evs := o.evs, text := o.text, err := o.err, closed := true } : RunOut))
      (pwLoop "kw" 3 id (fun _ => pwGoodPage) pauseHeldStop 300 [0, 1, 2] 0) = none
  rw [h]
  rfl

set_option maxRecDepth 8192 in
/-- C2 (amended): `stop()` takes effect only at the top-of-loop poll.  A stop
requested during page 2's processing lets page 2 finish (its request, its
readiness wait and its progress call all happen) and no page-3 request is
issued; but the pause-spin polls only `pause_flag`: while the pause is held,
no amount of spinning observes the stop — for every spin bound the run is
still spinning, in both variants — and only after `resume()` does the loop
finish the pending page and observe the stop at the next top-of-loop poll. -/
theorem spec_c2 :
    pwSearchAndExtract "kw" 3 id ⟨true, fun _ => pwGoodPage⟩ stopDuringPage2 10 =
      some ⟨[Ev.request (searchUrl "kw" 0), Ev.ready (pwAwaitReady true), Ev.progress 1 3,
             Ev.request (searchUrl "kw" 1), Ev.ready (pwAwaitReady true), Ev.progress 2 3],
            longText ++ "\n" ++ (longText ++ "\n" ++ ""), false, true⟩ ∧
    (∀ f : Nat,
      pwSearchAndExtract "kw" 3 id ⟨true, fun _ => pwGoodPage⟩ pauseHeldStop f = none) ∧
    (∀ f : Nat,
      spSearchAndExtract "kw" 3 id ⟨true, fun _ => spGoodPage⟩ pauseHeldStop f = none) ∧
    pwSearchAndExtract "kw" 3 id ⟨true, fun _ => pwGoodPage⟩ pauseThenResumeStop 10 =
      some ⟨[Ev.request (searchUrl "kw" 0), Ev.ready (pwAwaitReady true), Ev.progress 1 3],
            longText ++ "\n" ++ "", false, true⟩ := by
  refine ⟨by decide, ?_, ?_, by decide⟩
  · intro f
    have h := pwLoop_pauseHeldStop "kw" 3 id (fun _ => pwGoodPage) f 0 [1, 2]
    show Option.map (fun o : LoopOut => ({ evs := o.evs, text := o.text, err := o.err, closed := true } : RunOut))
        (pwLoop "kw" 3 id (fun _ => pwGoodPage) pauseHeldStop f [0, 1, 2] 0) = none
    rw [h]
    rfl
  · intro f
    have h := spLoop_pauseHeldStop "kw" 3 id (fun _ => spGoodPage) f 0 [1, 2]
    show Option.map (fun o : LoopOut => ({ evs := o.evs, text := o.text, err := o.err, closed := true } : RunOut))
        (spLoop "kw" 3 id (fun _ => spGoodPage) pauseHeldStop f [0, 1, 2] 0) = none
    rw [h]
    rfl

/-- C5 (counterexample): the claim that the readiness wait is a three-step
cascade fails for the `src/scraper_playwright.py` variant: its wait attempts
exactly one probe (the results container, 10s) — not the three-step cascade —
and on timeout proceeds directly to extraction, as the concrete one-page run
shows (request, single-probe `ready` event with no signal, progress, extracted
text). -/
theorem spec_c5_counterexample :
    pwAwaitReady false = ⟨[(Probe.container, 10000)], none, 0⟩ ∧
    (pwAwaitReady false).attempted.length = 1 ∧
    (pwAwaitReady false).attempted ≠ readinessCascade ∧
    pwAwaitReady false ≠ spAwaitReady false false false ∧
    pwSearchAndExtract "kw" 1 id ⟨true, fun _ => pwEmptyPage⟩ noSignals 3 =
      some ⟨[Ev.request (searchUrl "kw" 0), Ev.ready (pwAwaitReady false), Ev.progress 1 1],
            "\n", false, true⟩ := by
  refine ⟨rfl, rfl, by decide, by decide, by decide⟩

set_option maxRecDepth 8192 in
/-- C5 (amended): in `src/scraper.py` the readiness wait is the claimed
three-step cascade — container probe (10s), then result-item probe (10s)
attempted only if the first failed, then body probe (8s) followed by a 2s
settle attempted only if both failed — and no outcome of the probes affects
the run beyond diagnostics: text and error status are identical whether the
probes succeed or all time out, and a page whose three probes all time out is
still extracted.  In `src/scraper_playwright.py` the wait is instead the
single container probe of the counterexample. -/
theorem spec_c5 :
    (∀ s1 s2 s3 : Bool,
      (spAwaitReady s1 s2 s3).attempted =
        readinessCascade.take (if s1 then 1 else if s2 then 2 else 3) ∧
      (spAwaitReady s1 s2 s3).signal =
        (if s1 then some Probe.container
         else if s2 then some Probe.result
         else if s3 then some Probe.body
         else none) ∧
      (spAwaitReady s1 s2 s3).settleMs =
        (if s1 = false ∧ s2 = false ∧ s3 = true then 2000 else 0)) ∧
    readinessCascade = [(Probe.container, 10000), (Probe.result, 10000), (Probe.body, 8000)] ∧
    (∀ (k : String) (n : Nat) (u : String → String) (env : Nat → SpPageEnv) (f : Nat),
      (spSearchAndExtract k n u ⟨true, fun j => noReadyEnv (env j)⟩ noSignals f).map
          (fun o => (o.text, o.err)) =
        (spSearchAndExtract k n u ⟨true, env⟩ noSignals f).map (fun o => (o.text, o.err))) ∧
    spSearchAndExtract "kw" 1 id ⟨true, fun _ => spAllFailReadyPage⟩ noSignals 3 =
      some ⟨[Ev.request (searchUrl "kw" 0), Ev.ready ⟨readinessCascade, none, 0⟩,
             Ev.progress 1 1], longText ++ "\n" ++ "", false, true⟩ := by
  refine ⟨?_, rfl, ?_, by decide⟩
  · intro s1 s2 s3
    cases s1 <;> cases s2 <;> cases s3 <;> exact ⟨rfl, rfl, rfl⟩
  · intro k n u env f
    obtain ⟨ht, he⟩ := spPure_noReady k n u env (List.range n)
    rw [spRun_noSignals, spRun_noSignals]
    show some ((spPure k n u (fun j => noReadyEnv (env j)) (List.range n)).text,
               (spPure k n u (fun j => noReadyEnv (env j)) (List.range n)).err) =
      some ((spPure k n u env (List.range n)).text, (spPure k n u env (List.range n)).err)
    rw [ht, he]

/-- C6: the visible-text read is used as a page's contribution exactly when it
is nonempty and longer than 100 characters after stripping; otherwise the
fallback pipeline runs — strip `<script>`/`<style>` blocks (non-greedy, across
newlines), replace remaining tags, collapse whitespace runs and trim, then
decode entities — and its result is used even when short (in `src/scraper.py`,
whenever it is nonempty); on the sample markup the pipeline yields its cleaned
text. -/
theorem spec_c6 :
    (∀ (u : String → String) (h : String),
      clean_html_text u h =
        u (String.mk (pyStripL (collapseWsL (stripTags (stripStyles (stripScripts h.toList))))))) ∧
    (∀ (u : String → String) (v h : String) (k : String) (f : Nat),
      (pyStrip v ≠ "" ∧ 100 < (pyStrip v).length →
        (pwSearchAndExtract k 1 u
            ⟨true, fun _ => ⟨NavRes.ok, SelRes.found, PyRes.ok v, PyRes.ok h⟩⟩
            noSignals f).map RunOut.text = some (pyStrip v ++ "\n")) ∧
      (¬(pyStrip v ≠ "" ∧ 100 < (pyStrip v).length) →
        (pwSearchAndExtract k 1 u
            ⟨true, fun _ => ⟨NavRes.ok, SelRes.found, PyRes.ok v, PyRes.ok h⟩⟩
            noSignals f).map RunOut.text = some (clean_html_text u h ++ "\n"))) ∧
    (∀ (u : String → String) (v h : String) (a b c : Bool),
      ¬(pyStrip v ≠ "" ∧ 100 < (pyStrip v).length) →
      spExtract u ⟨true, a, b, c, PyRes.ok v, PyRes.ok h⟩ =
        (if clean_html_text u h = "" then none else some (clean_html_text u h))) ∧
    clean_html_text id sampleHtml = "Hello world" := by
  refine ⟨fun u h => rfl, ?_, ?_, by decide⟩
  · intro u v h k f
    constructor
    · intro hcond
      rw [pwRun_noSignals]
      show some ((pwPure k 1 u
          (fun _ => ⟨NavRes.ok, SelRes.found, PyRes.ok v, PyRes.ok h⟩) [0]).text) = _
      simp only [pwPure]
      rw [if_pos hcond]
      show some ((pyStrip v ++ "\n") ++ "") = some (pyStrip v ++ "\n")
      rw [String.append_empty]
    · intro hcond
      rw [pwRun_noSignals]
      show some ((pwPure k 1 u
          (fun _ => ⟨NavRes.ok, SelRes.found, PyRes.ok v, PyRes.ok h⟩) [0]).text) = _
      simp only [pwPure]
      rw [if_neg hcond]
      show some ((clean_html_text u h ++ "\n") ++ "") = some (clean_html_text u h ++ "\n")
      rw [String.append_empty]
  · intro u v h a b c hcond
    simp only [spExtract, spHtmlFallback]
    rw [if_neg hcond]

/-- C6 (witness): a page whose visible text is the single character `x` falls
back to markup cleaning, and the cleaned sample markup — scripts stripped,
tags replaced, whitespace collapsed — is what the run returns. -/
theorem spec_c6_witness :
    (pwSearchAndExtract "kw" 1 id
        ⟨true, fun _ => ⟨NavRes.ok, SelRes.found, PyRes.ok "x", PyRes.ok sampleHtml⟩⟩
        noSignals 2).map RunOut.text = some "Hello world\n" :=
  ((spec_c6.2.1 id "x" sampleHtml "kw" 2).2 (by decide)).trans (by decide)

/-- C7 (counterexample): the claim that a page whose extraction yielded
nothing contributes nothing to the returned string is false for the
`src/scraper_playwright.py` variant: a page whose visible text and cleaned
markup are both empty still appends its (empty) block plus a newline, so a
one-page run returns `"\n"`, not `""`. -/
theorem spec_c7_counterexample :
    pwSearchAndExtract "kw" 1 id ⟨true, fun _ => pwEmptyFoundPage⟩ noSignals 3 =
      some ⟨[Ev.request (searchUrl "kw" 0), Ev.ready (pwAwaitReady true), Ev.progress 1 1],
            "\n", false, true⟩ ∧
    ("\n" : String) ≠ "" := by
  exact ⟨by decide, by decide⟩

/-- C7 (amended): the returned value is the concatenation, in page order, of
the per-page blocks: in `src/scraper.py` a block is the extracted text plus
one newline and a page whose navigation raised or whose extraction yielded
nothing contributes nothing; in the Playwright variant a navigation-timeout
page contributes nothing but every processed page appends its block plus a
newline even when the block is empty; in both variants a run in which every
page fails (navigation raising, resp. timing out) returns the empty string
without raising. -/
theorem spec_c7 :
    (∀ (k : String) (n : Nat) (u : String → String) (env : Nat → SpPageEnv) (f : Nat),
      (spSearchAndExtract k n u ⟨true, env⟩ noSignals f).map RunOut.text =
        some (joinBlocks ((List.range n).map (fun i => contribStr (spContrib u (env i)))))) ∧
    (∀ (k : String) (n : Nat) (u : String → String) (env : Nat → PwPageEnv) (f : Nat),
      (∀ i, i < n → pwPageAborts (env i) = false) →
      (pwSearchAndExtract k n u ⟨true, env⟩ noSignals f).map RunOut.text =
        some (joinBlocks ((List.range n).map (fun i => contribStr (pwContrib u (env i)))))) ∧
    (∀ (k : String) (n : Nat) (u : String → String) (env : Nat → SpPageEnv) (f : Nat),
      (∀ i, i < n → (env i).nav = false) →
      (spSearchAndExtract k n u ⟨true, env⟩ noSignals f).map (fun o => (o.text, o.err)) =
        some ("", false)) ∧
    (∀ (k : String) (n : Nat) (u : String → String) (env : Nat → PwPageEnv) (f : Nat),
      (∀ i, i < n → (env i).nav = NavRes.timeout) →
      (pwSearchAndExtract k n u ⟨true, env⟩ noSignals f).map (fun o => (o.text, o.err)) =
        some ("", false)) := by
  refine ⟨?_, ?_, ?_, ?_⟩
  · intro k n u env f
    rw [spRun_noSignals]
    exact congrArg some (spPure_text k n u env (List.range n))
  · intro k n u env f hab
    have hab' : ∀ i ∈ List.range n, pwPageAborts (env i) = false :=
      fun i hi => hab i (List.mem_range.mp hi)
    rw [pwRun_noSignals]
    exact congrArg some ((pwPure_ok k n u env (List.range n) hab').2.2.2)
  · intro k n u env f hall
    rw [spRun_noSignals]
    refine congrArg some ?_
    show ((spPure k n u env (List.range n)).text, (spPure k n u env (List.range n)).err)
        = ("", false)
    rw [spPure_text, spPure_err]
    refine congrArg (fun t => (t, false)) ?_
    refine joinBlocks_empty _ ?_
    intro b hb
    obtain ⟨i, hi, hbi⟩ := List.mem_map.mp hb
    rw [← hbi]
    have : (env i).nav = false := hall i (List.mem_range.mp hi)
    simp [spContrib, this, contribStr]
  · intro k n u env f hall
    have hab' : ∀ i ∈ List.range n, pwPageAborts (env i) = false := by
      intro i hi
      have := hall i (List.mem_range.mp hi)
      simp [pwPageAborts, this]
    rw [pwRun_noSignals]
    refine congrArg some ?_
    show ((pwPure k n u env (List.range n)).text, (pwPure k n u env (List.range n)).err)
        = ("", false)
    rw [(pwPure_ok k n u env (List.range n) hab').2.2.2,
      (pwPure_ok k n u env (List.range n) hab').1]
    refine congrArg (fun t => (t, false)) ?_
    refine joinBlocks_empty _ ?_
    intro b hb
    obtain ⟨i, hi, hbi⟩ := List.mem_map.mp hb
    rw [← hbi]
    have : (env i).nav = NavRes.timeout := hall i (List.mem_range.mp hi)
    simp [pwContrib, this, contribStr]

/-- C7 (witness): a two-page Playwright run in which both navigations time
out returns the empty string without raising. -/
theorem spec_c7_witness :
    (pwSearchAndExtract "kw" 2 id ⟨true, fun _ => pwNavTimeoutPage⟩ noSignals 3).map
        (fun o => (o.text, o.err)) = some ("", false) :=
  spec_c7.2.2.2 "kw" 2 id (fun _ => pwNavTimeoutPage) 3 (fun _ _ => rfl)
